import Mathlib

/-!
Verification of the mocks-to-msw adapter against its specification.

The development shallowly embeds the two utilities of the repository:

* the Mock Dispatcher of src/index.ts: a typed dispatch layer turning a
  (method, path, optional modifier) triple into a registration-ready msw
  handler whose resolver loads a JSON fixture from a mapping of
  deferred imports; and
* the Mock-Map Generator of src/generate-mocks.ts: a recursive directory
  walk producing a source module that maps synthesized API paths to
  deferred-import expressions.

External collaborators (the msw registration calls, the WHATWG URL
constructor, Node's path utilities and the file system) are modelled by
small executable Lean functions restricted to the argument shapes the
repository uses; each such model carries a doc comment saying so.  All
string utilities are implemented by structural recursion over character
lists so that every definition evaluates inside the kernel.
-/

/-- The four HTTP methods supported by src/index.ts
(`type Method = Uppercase<SupportedMethods>`). -/
inductive Method where
  | GET
  | POST
  | PUT
  | DELETE
deriving DecidableEq, Repr

/-- The string form of a method, as interpolated into fixture keys and
log messages by src/index.ts. -/
def Method.toStr : Method → String
  | Method.GET => "GET"
  | Method.POST => "POST"
  | Method.PUT => "PUT"
  | Method.DELETE => "DELETE"

/-- A JavaScript exception value: either a TypeError (e.g. reading a
property of undefined) or an ordinary Error/rejection value. -/
inductive JsError where
  | typeError (msg : String)
  | jsError (msg : String)
deriving DecidableEq, Repr

/-- The module object a deferred fixture import resolves to
(`{ default: content }` in src/index.ts's MockImport). -/
structure MockModule (α : Type) where
  default : α
deriving DecidableEq, Repr

/-- A deferred fixture import (`type MockImport = Promise<{default}>`):
once awaited it either resolves to a module or rejects with an error. -/
def MockImport (α : Type) : Type := Except JsError (MockModule α)

/-- Severity of a console diagnostic emitted by the dispatcher. -/
inductive LogLevel where
  | info
  | error
deriving DecidableEq, Repr

/-- One console diagnostic: level, message text, and the error object
passed as console.error's second argument when present. -/
structure LogEvent where
  level : LogLevel
  message : String
  errObj : Option JsError
deriving DecidableEq, Repr

/-- A response modifier (`type ModifierFn<R> = (json: R) => any`); as a
JavaScript function it may also throw, hence the Except codomain. -/
def Modifier (α : Type) : Type := α → Except JsError α

/-- The value msw's HttpResponse.json wraps: a JSON response carrying
the given body. -/
structure HttpResponse (α : Type) where
  body : α
deriving DecidableEq, Repr

/-- Models the external HttpResponse.json constructor of msw. -/
def HttpResponse.json (a : α) : HttpResponse α :=
  { body := a }

/-- The options record of src/index.ts (interface CreateMockHandlerOptions):
a record of deferred fixture imports keyed by fixture key, a debug flag
(defaulting to undefined/false) and an optional URL origin.  The mocks
record is embedded as an association list with the uniqueness of
JavaScript object keys reflected by first-match lookup. -/
structure CreateMockHandlerOptions (α : Type) where
  mocks : List (String × MockImport α)
  debug : Bool
  origin : Option String

/-- JavaScript property access `mocks[mockPath]` on the options record:
the value at the first matching key, or none (undefined) when absent. -/
def lookupMock (key : String) : List (String × β) → Option β
  | [] => none
  | kv :: rest => if kv.1 = key then some kv.2 else lookupMock key rest

/-- The info message of src/index.ts line 37. -/
def loadedMsg (method pathname : String) : String :=
  "[mocks-to-msw] Mock file was loaded. [" ++ method ++ "]: \"" ++ pathname ++ "\""

/-- The error message of src/index.ts line 45. -/
def notFoundMsg (method pathname : String) : String :=
  "[mocks-to-msw] Mock file was not found. [" ++ method ++ "]: \"" ++ pathname ++ "\""

/-- The error message of src/index.ts line 58. -/
def invalidUrlMsg (origin pathname : String) : String :=
  "[mocks-to-msw] Invalid URL. The provided option for a createMockHandler, the URL's origin, has the issue. Values: [origin]: \"" ++ origin ++ "\" [pathname]: \"" ++ pathname ++ "\""

/-- The TypeError raised by `mocks[mockPath].then(...)` when the key is
absent and the property access yields undefined. -/
def undefinedThenError : JsError :=
  JsError.typeError "Cannot read properties of undefined (reading 'then')"

/-- The resolver of src/index.ts lines 32-48 (`const getMock = async () => ...`).
It builds the fixture key `pathname ++ "/" ++ method`, awaits the
deferred import at that key, optionally applies the modifier, and wraps the result
with HttpResponse.json; the surrounding try/catch turns every failure
(absent key, rejected import, throwing modifier) into no response value,
logging one error diagnostic when debug is set.  The returned pair is the
produced response (none on the catch path) together with the console
diagnostics emitted during the invocation, in order. -/
def getMock (options : CreateMockHandlerOptions α) (method : Method) (pathname : String)
    (modifier : Option (Modifier α)) : Option (HttpResponse α) × List LogEvent :=
  let mockPath := pathname ++ "/" ++ Method.toStr method
  match lookupMock mockPath options.mocks with
  | none =>
      (none, if options.debug
        then [{ level := LogLevel.error, message := notFoundMsg (Method.toStr method) pathname,
                errObj := some undefinedThenError }]
        else [])
  | some (Except.error e) =>
      (none, if options.debug
        then [{ level := LogLevel.error, message := notFoundMsg (Method.toStr method) pathname,
                errObj := some e }]
        else [])
  | some (Except.ok res) =>
      let data := res.default
      let infoLogs := if options.debug
        then [{ level := LogLevel.info, message := loadedMsg (Method.toStr method) pathname,
                errObj := none }]
        else []
      match modifier with
      | some f =>
          match f data with
          | Except.ok body => (some (HttpResponse.json body), infoLogs)
          | Except.error e =>
              (none, infoLogs ++ (if options.debug
                then [{ level := LogLevel.error, message := notFoundMsg (Method.toStr method) pathname,
                        errObj := some e }]
                else []))
      | none => (some (HttpResponse.json data), infoLogs)

/-- Whether a character list begins with the given pattern list. -/
def isPrefixList : List Char → List Char → Bool
  | [], _ => true
  | _ :: _, [] => false
  | a :: as, b :: bs => a = b && isPrefixList as bs

/-- `s.startsWith p` on the underlying character lists. -/
def strStartsWith (s p : String) : Bool :=
  isPrefixList p.data s.data

/-- `s.endsWith p` on the underlying character lists. -/
def strEndsWith (s p : String) : Bool :=
  isPrefixList p.data.reverse s.data.reverse

/-- Splits a character list around the first occurrence of the pattern:
some (before, after) when the pattern occurs, none otherwise. -/
def firstSplit (pat : List Char) : List Char → Option (List Char × List Char)
  | [] => if pat = [] then some ([], []) else none
  | x :: xs =>
      if isPrefixList pat (x :: xs) then some ([], List.drop pat.length (x :: xs))
      else match firstSplit pat xs with
        | some (pre, post) => some (x :: pre, post)
        | none => none

/-- JavaScript `s.replace(pat, repl)` with a string pattern: replaces only
the first occurrence (an empty pattern matches at the start, as in
JavaScript). -/
def replaceFirst (s pat repl : String) : String :=
  match firstSplit pat.data s.data with
  | some (pre, post) => String.mk (pre ++ repl.data ++ post)
  | none => s

/-- Models the external WHATWG URL check performed by `new URL(pathname, origin)`:
whether the base string is a well-formed origin of the shape
scheme "://" host, with an alphabetic scheme and a nonempty slash-free
host (the shape the repository documents for its origin option). -/
def validOrigin (s : String) : Bool :=
  match firstSplit "://".data s.data with
  | some (scheme, host) =>
      !(scheme == []) && scheme.all Char.isAlpha && !(host == []) && !(host.contains '/')
  | none => false

/-- Models the external WHATWG constructor `new URL(pathname, origin).href`
restricted to the shapes the repository uses: an absolute path combined
with a bare origin yields origin ++ path, anything else throws a
TypeError ("Invalid URL"). -/
def newURL (pathname base : String) : Except JsError String :=
  match validOrigin base && strStartsWith pathname "/" with
  | true => Except.ok (base ++ pathname)
  | false => Except.error (JsError.typeError "Invalid URL")

/-- The URL construction of src/index.ts lines 51-66: when a truthy origin
is configured, try to combine it with the pathname; on failure log an
error diagnostic (when debug is set) and fall back to the bare pathname.
The construction is total — it never propagates the URL exception. -/
def constructUrl (options : CreateMockHandlerOptions α) (pathname : String) :
    String × List LogEvent :=
  match options.origin with
  | none => (pathname, [])
  | some origin =>
      if origin = "" then (pathname, [])
      else match newURL pathname origin with
        | Except.ok href => (href, [])
        | Except.error e =>
            (pathname, if options.debug
              then [{ level := LogLevel.error, message := invalidUrlMsg origin pathname,
                      errObj := some e }]
              else [])

/-- The interception handler registered through msw's http.<verb>(url, getMock):
the verb, the URL passed to the registration call, and the resolver
outcome produced when the handler later matches a request. -/
structure Handler (α : Type) where
  method : Method
  url : String
  resolve : Option (HttpResponse α) × List LogEvent

/-- src/index.ts lines 28-80 (createMocksRequest): builds the resolver,
constructs the URL (emitting any URL diagnostics at registration time),
and dispatches on the verb to the msw registration call.  The switch's
default branch is unreachable because Method is an enumerated type.
Returns the registered handler together with the construction-time
diagnostics. -/
def createMocksRequest (options : CreateMockHandlerOptions α) (method : Method)
    (pathname : String) (modifier : Option (Modifier α)) : Handler α × List LogEvent :=
  let u := constructUrl options pathname
  ({ method := method, url := u.1, resolve := getMock options method pathname modifier }, u.2)

/-- The per-verb namespace returned by createMockNamespace
(src/index.ts lines 101-153). -/
structure MockNamespace (α : Type) where
  get : String → Option (Modifier α) → Handler α × List LogEvent
  post : String → Option (Modifier α) → Handler α × List LogEvent
  put : String → Option (Modifier α) → Handler α × List LogEvent
  delete : String → Option (Modifier α) → Handler α × List LogEvent

/-- src/index.ts createMockNamespace: each verb operation forwards to
createMocksRequest with the matching method constant. -/
def createMockNamespace (options : CreateMockHandlerOptions α) : MockNamespace α :=
  { get := fun uri modifier => createMocksRequest options Method.GET uri modifier
    post := fun uri modifier => createMocksRequest options Method.POST uri modifier
    put := fun uri modifier => createMocksRequest options Method.PUT uri modifier
    delete := fun uri modifier => createMocksRequest options Method.DELETE uri modifier }

/-- The record returned by createMockHandler (src/index.ts lines 193-204). -/
structure MockHandlerResult (α : Type) where
  mock : MockNamespace α

/-- src/index.ts createMockHandler: wraps the namespace in a { mock } record. -/
def createMockHandler (options : CreateMockHandlerOptions α) : MockHandlerResult α :=
  { mock := createMockNamespace options }

/-- Selects the verb operation of the namespace corresponding to a method,
so statements can quantify over the four registration operations. -/
def verbOp (ns : MockNamespace α) : Method → String → Option (Modifier α) → Handler α × List LogEvent
  | Method.GET => ns.get
  | Method.POST => ns.post
  | Method.PUT => ns.put
  | Method.DELETE => ns.delete

/-- One invocation of a registered resolver, presented as a state
transition on the captured environment: the source resolver closes over
the options record and performs no assignment, so the environment after
the call is the one before it. -/
def invokeHandler (options : CreateMockHandlerOptions α) (method : Method) (pathname : String)
    (modifier : Option (Modifier α)) :
    (Option (HttpResponse α) × List LogEvent) × CreateMockHandlerOptions α :=
  (getMock options method pathname modifier, options)

/-- Modelled from the spec: the loader configuration mode
(`{ loader: (key) => content }`) described by spec sections 3 and 6 but
absent from src/index.ts.  Per the spec, a loader-mode resolver obtains
fixture content by invoking the loader function with the fixture key
"<path>/<METHOD>". -/
def specLoaderResolve (loader : String → α) (method : Method) (pathname : String) : α :=
  loader (pathname ++ "/" ++ Method.toStr method)

example : getMock (α := Nat)
    { mocks := [("/api/user/GET", Except.ok { default := 5 })], debug := true, origin := none }
    Method.GET "/api/user" none
    = (some (HttpResponse.json 5),
       [{ level := LogLevel.info, message := loadedMsg "GET" "/api/user", errObj := none }]) := by
  decide

example : (constructUrl (α := Nat)
    { mocks := [], debug := false, origin := some "https://api.example.com" } "/api/test").1
    = "https://api.example.com/api/test" := by
  decide

/-- Splits a character list on a separator character; the result always
has one more piece than there are separators. -/
def splitCharsOn (c : Char) : List Char → List (List Char)
  | [] => [[]]
  | x :: xs =>
      let r := splitCharsOn c xs
      if x = c then [] :: r
      else match r with
        | [] => [[x]]
        | y :: ys => (x :: y) :: ys

/-- Splits a string on a separator character. -/
def splitOnChar (s : String) (c : Char) : List String :=
  (splitCharsOn c s.data).map String.mk

/-- Joins strings with a separator. -/
def joinWith (sep : String) : List String → String
  | [] => ""
  | [x] => x
  | x :: y :: ys => x ++ sep ++ joinWith sep (y :: ys)

/-- Models Node's path.join for the shapes the generator uses
(POSIX segments without trailing separators; an empty left argument is
dropped, as path.join("", b) = b). -/
def pathJoin (a b : String) : String :=
  if a = "" then b else a ++ "/" ++ b

/-- Models Node's path.dirname for relative POSIX paths: everything before
the last separator, or "." when there is none. -/
def pathDirname (p : String) : String :=
  let parts := splitOnChar p '/'
  if parts.length ≤ 1 then "." else joinWith "/" parts.dropLast

/-- The meaningful components of a relative POSIX path (empty and "."
components are dropped, as path resolution normalizes them). -/
def pathParts (p : String) : List String :=
  (splitOnChar p '/').filter (fun s => !(s == "") && !(s == "."))

/-- Drops the longest shared leading run of two component lists. -/
def dropShared : List String → List String → List String × List String
  | a :: as, b :: bs => if a = b then dropShared as bs else (a :: as, b :: bs)
  | as, bs => (as, bs)

/-- Models Node's path.relative on two relative POSIX paths (both resolved
against the same working directory): strip the shared leading components,
then climb out of what remains of the source and descend into the target. -/
def pathRelative (src dst : String) : String :=
  let p := dropShared (pathParts src) (pathParts dst)
  joinWith "/" (p.1.map (fun _ => "..") ++ p.2)

/-- JavaScript `s.replace(/c/g, r)` for a single-character pattern:
replaces every occurrence. -/
def replaceAllChar (s : String) (c r : Char) : String :=
  String.mk (s.data.map (fun x => if x = c then r else x))

/-- The regex strip `replace(/^[\/\\]/, "")` of src/generate-mocks.ts
line 23: removes one leading slash or backslash. -/
def stripLeadingSep (s : String) : String :=
  if strStartsWith s "/" || strStartsWith s "\\" then String.mk (s.data.drop 1) else s

/-- A directory entry as returned by fs.readdirSync(dir, {withFileTypes}):
either a file or a subdirectory with its own entries. -/
inductive FsEntry where
  | file (name : String)
  | dir (name : String) (entries : List FsEntry)

/-- JavaScript `result[key] = value` / one step of Object.assign: an
existing key is updated in place (keeping its position), a new key is
appended. -/
def assignOne (m : List (String × String)) (key val : String) : List (String × String) :=
  if m.any (fun kv => kv.1 == key) then
    m.map (fun kv => if kv.1 == key then (key, val) else kv)
  else m ++ [(key, val)]

/-- Object.assign(result, sub): copies sub's entries into result in order. -/
def assign (m sub : List (String × String)) : List (String × String) :=
  sub.foldl (fun acc kv => assignOne acc kv.1 kv.2) m

/-- The body of the `else if (entry.isFile() && entry.name.endsWith(".json"))`
branch of scanDirectory (src/generate-mocks.ts lines 19-31): derives the
fixture key and the deferred-import expression for one fixture file. -/
def processFile (name dir basePath inputFolder outputFile : String) : String × String :=
  let fullPath := pathJoin dir name
  let relativePath := pathJoin basePath name
  let dirPath := pathDirname relativePath
  let method := replaceFirst name ".json" ""
  let mockPath := stripLeadingSep (replaceFirst dirPath inputFolder "")
  let outputDir := pathDirname outputFile
  let relativeImportPath := pathRelative outputDir fullPath
  let normalizedImportPath := "./" ++ replaceAllChar relativeImportPath '\\' '/'
  ("/" ++ mockPath ++ "/" ++ method, "import('" ++ normalizedImportPath ++ "')")

/-- The entries.forEach loop of scanDirectory (src/generate-mocks.ts
lines 13-33), made explicit as a left-to-right accumulation: a
subdirectory's recursive result is merged with Object.assign, a .json
file contributes its processFile entry. -/
def scanGo (acc : List (String × String)) (entries : List FsEntry)
    (dir basePath inputFolder outputFile : String) : List (String × String) :=
  match entries with
  | [] => acc
  | FsEntry.dir name sub :: rest =>
      scanGo
        (assign acc (scanGo [] sub (pathJoin dir name) (pathJoin basePath name) inputFolder outputFile))
        rest dir basePath inputFolder outputFile
  | FsEntry.file name :: rest =>
      let acc2 :=
        if strEndsWith name ".json" then
          let kv := processFile name dir basePath inputFolder outputFile
          assignOne acc kv.1 kv.2
        else acc
      scanGo acc2 rest dir basePath inputFolder outputFile
termination_by sizeOf entries
decreasing_by
  all_goals simp_wf
  all_goals omega

/-- scanDirectory of src/generate-mocks.ts lines 9-36, over an embedded
directory tree (the entries of dir) in place of fs.readdirSync. -/
def scanDirectory (entries : List FsEntry) (dir basePath inputFolder outputFile : String) :
    List (String × String) :=
  scanGo [] entries dir basePath inputFolder outputFile

/-- The output rendering of src/generate-mocks.ts lines 75-82. -/
def renderOutput (mocks : List (String × String)) : String :=
  "const mocks = \x7b\n"
    ++ joinWith "\n" (mocks.map (fun kv => "  '" ++ kv.1 ++ "': " ++ kv.2 ++ ","))
    ++ "\n\x7d as const;\n\nexport default mocks;\n"

/-- The observable outcome of one generator run: exit code, stderr and
stdout lines, the file written (path and content) and the directories
created. -/
structure GenOutcome where
  exitCode : Nat
  stderrLines : List String
  stdoutLines : List String
  written : Option (String × String)
  createdDirs : List String
deriving DecidableEq, Repr

/-- The main routine of src/generate-mocks.ts lines 57-89, after argument
parsing: the input folder's tree is some tree when fs.existsSync(folder)
holds and none otherwise.  A missing input folder is reported to stderr
and terminates with exit code 1 before any directory is created or any
file is written; otherwise the output directory is created when absent,
the tree is scanned and the rendered mapping is written. -/
def runMain (folder outFile : String) (inputTree : Option (List FsEntry))
    (outputDirExists : Bool) : GenOutcome :=
  match inputTree with
  | none =>
      { exitCode := 1
        stderrLines := ["Input folder \"" ++ folder ++ "\" does not exist"]
        stdoutLines := []
        written := none
        createdDirs := [] }
  | some tree =>
      let outputDir := pathDirname outFile
      let created := if outputDirExists then [] else [outputDir]
      let mocks := scanDirectory tree folder "" folder outFile
      { exitCode := 0
        stderrLines := []
        stdoutLines := ["Generated mocks file created successfully at " ++ outFile ++ "!"]
        written := some (outFile, renderOutput mocks)
        createdDirs := created }

example : scanDirectory
    [FsEntry.dir "user" [FsEntry.file "GET.json", FsEntry.file "POST.json"]]
    "fixtures" "" "fixtures" "src/generated/mocks.ts"
    = [("/user/GET", "import('./../../fixtures/user/GET.json')"),
       ("/user/POST", "import('./../../fixtures/user/POST.json')")] := by
  simp only [scanDirectory, scanGo]
  decide

example : scanDirectory [FsEntry.dir "user" [FsEntry.file "GET.json"]]
    "user" "" "user" "out/mocks.ts"
    = [("//GET", "import('./../user/user/GET.json')")] := by
  simp only [scanDirectory, scanGo]
  decide

example : scanDirectory [FsEntry.file "GET.json"] "." "" "." "out/mocks.ts"
    = [("//GET", "import('./../GET.json')")] := by
  simp only [scanDirectory, scanGo]
  decide

example : scanDirectory [FsEntry.file "GET.json"] "fixtures" "" "fixtures" "src/generated/mocks.ts"
    = [("/./GET", "import('./../../fixtures/GET.json')")] := by
  simp only [scanDirectory, scanGo]
  decide

theorem verbOp_createMockHandler (options : CreateMockHandlerOptions α) (method : Method) :
    verbOp (createMockHandler options).mock method = createMocksRequest options method := by
  cases method <;> rfl

/-- The largest key length occurring in an association list. -/
def maxKeyLen (m : List (String × β)) : Nat :=
  m.foldr (fun kv acc => max kv.1.length acc) 0

theorem len_le_maxKeyLen (m : List (String × β)) (kv : String × β) (h : kv ∈ m) :
    kv.1.length ≤ maxKeyLen m := by
  induction m with
  | nil => cases h
  | cons a rest ih =>
      rcases List.mem_cons.mp h with h1 | h2
      · subst h1
        show kv.1.length ≤ max kv.1.length (maxKeyLen rest)
        exact le_max_left _ _
      · exact le_trans (ih h2) (le_max_right _ _)

theorem lookupMock_eq_none (key : String) (m : List (String × β))
    (h : ∀ kv ∈ m, kv.1 ≠ key) : lookupMock key m = none := by
  induction m with
  | nil => rfl
  | cons kv rest ih =>
      have hne : kv.1 ≠ key := h kv (List.mem_cons_self kv rest)
      show (if kv.1 = key then some kv.2 else lookupMock key rest) = none
      rw [if_neg hne]
      exact ih (fun x hx => h x (List.mem_cons_of_mem kv hx))

/-- A string strictly longer than every key of the list, so that no
fixture key can coincide with it. -/
def longKey (m : List (String × β)) : String :=
  String.mk (List.replicate (maxKeyLen m + 1) 'a')

theorem longKey_length (m : List (String × β)) :
    (longKey m).length = maxKeyLen m + 1 := by
  simp [longKey, String.length]

/-- C1: for every (method, path) pair whose fixture key "<path>/<METHOD>"
is present in the mocks mapping, registering a handler through the
corresponding verb operation and invoking the resulting resolver yields a
JSON response whose body is modifier(fixtureContent) when a modifier is
supplied, and the stored fixture content unchanged when none is. -/
theorem mocksToMsw_c1_verb_resolves_fixture {α : Type}
    (options : CreateMockHandlerOptions α) (method : Method) (pathname : String)
    (c : α) (f : α → α)
    (h : lookupMock (pathname ++ "/" ++ Method.toStr method) options.mocks
          = some (Except.ok { default := c })) :
    (verbOp (createMockHandler options).mock method pathname
        (some (fun a => Except.ok (f a)))).1.resolve.1 = some (HttpResponse.json (f c))
    ∧ (verbOp (createMockHandler options).mock method pathname none).1.resolve.1
        = some (HttpResponse.json c) := by
  rw [verbOp_createMockHandler]
  refine ⟨?_, ?_⟩ <;> simp [createMocksRequest, getMock, h]

theorem mocksToMsw_c1_witness :
    (verbOp (createMockHandler
        ({ mocks := [("/api/user/GET", Except.ok { default := 5 })], debug := false,
           origin := none } : CreateMockHandlerOptions Nat)).mock
        Method.GET "/api/user" (some (fun a => Except.ok (Nat.succ a)))).1.resolve.1
      = some (HttpResponse.json 6)
    ∧ (verbOp (createMockHandler
        ({ mocks := [("/api/user/GET", Except.ok { default := 5 })], debug := false,
           origin := none } : CreateMockHandlerOptions Nat)).mock
        Method.GET "/api/user" none).1.resolve.1 = some (HttpResponse.json 5) :=
  mocksToMsw_c1_verb_resolves_fixture _ Method.GET "/api/user" 5 Nat.succ rfl

/-- C2, corrected: src/index.ts has no loader configuration mode; the only
construction mode is the mocks mapping, and the resolver obtains fixture
content solely from the deferred handle stored at the fixture key
"<path>/<METHOD>" (reading its default export). -/
theorem mocksToMsw_c2_mocks_only_mode {α : Type}
    (options : CreateMockHandlerOptions α) (method : Method) (pathname : String) :
    (verbOp (createMockHandler options).mock method pathname none).1.resolve.1
      = match lookupMock (pathname ++ "/" ++ Method.toStr method) options.mocks with
        | some (Except.ok res) => some (HttpResponse.json res.default)
        | _ => none := by
  rw [verbOp_createMockHandler]
  cases hl : lookupMock (pathname ++ "/" ++ Method.toStr method) options.mocks with
  | none => simp [createMocksRequest, getMock, hl]
  | some x =>
      cases x with
      | error e => simp [createMocksRequest, getMock, hl]
      | ok res => simp [createMocksRequest, getMock, hl]

/-- C2 counterexample: no Dispatcher built from the options record of
src/index.ts realizes the spec's loader mode.  A loader-mode resolver
(specLoaderResolve, modelled from the spec) answers every pathname — here
with the length of the fixture key — while any mocks mapping is a finite
record, so some pathname gets no response. -/
theorem mocksToMsw_c2_counterexample :
    ¬ ∃ options : CreateMockHandlerOptions Nat,
        ∀ pathname : String,
          (verbOp (createMockHandler options).mock Method.GET pathname none).1.resolve.1
            = some (HttpResponse.json (specLoaderResolve String.length Method.GET pathname)) := by
  rintro ⟨opts, h⟩
  have hnone : lookupMock (longKey opts.mocks ++ "/" ++ Method.toStr Method.GET) opts.mocks
      = none := by
    apply lookupMock_eq_none
    intro kv hm heq
    have h1 : kv.1.length ≤ maxKeyLen opts.mocks := len_le_maxKeyLen _ _ hm
    have h2 : (longKey opts.mocks ++ "/" ++ Method.toStr Method.GET).length
        = maxKeyLen opts.mocks + 5 := by
      rw [String.length_append, String.length_append, longKey_length]
      have l1 : ("/" : String).length = 1 := rfl
      have l2 : (Method.toStr Method.GET).length = 3 := rfl
      rw [l1, l2]
    rw [heq, h2] at h1
    omega
  have hres : (verbOp (createMockHandler opts).mock Method.GET (longKey opts.mocks)
      none).1.resolve.1 = none := by
    rw [verbOp_createMockHandler]
    simp [createMocksRequest, getMock, hnone]
  rw [h (longKey opts.mocks)] at hres
  exact Option.noConfusion hres

/-- C3: for every (method, path) pair whose fixture key is absent from the
mapping or whose deferred import rejects, the resolver produces no
response value and, with debug on, emits exactly one error-level
diagnostic whose message names that method and path; with debug off it
emits none. -/
theorem mocksToMsw_c3_soft_miss {α : Type}
    (options : CreateMockHandlerOptions α) (method : Method) (pathname : String)
    (modifier : Option (Modifier α))
    (h : lookupMock (pathname ++ "/" ++ Method.toStr method) options.mocks = none
         ∨ ∃ e, lookupMock (pathname ++ "/" ++ Method.toStr method) options.mocks
              = some (Except.error e)) :
    (verbOp (createMockHandler options).mock method pathname modifier).1.resolve.1 = none
    ∧ (options.debug = true →
        ∃ ev, (verbOp (createMockHandler options).mock method pathname modifier).1.resolve.2
            = [ev]
          ∧ ev.level = LogLevel.error
          ∧ ev.message = notFoundMsg (Method.toStr method) pathname)
    ∧ (options.debug = false →
        (verbOp (createMockHandler options).mock method pathname modifier).1.resolve.2 = []) := by
  rw [verbOp_createMockHandler]
  rcases h with h | ⟨e, h⟩
  · refine ⟨by simp [createMocksRequest, getMock, h], fun hd => ?_,
      fun hd => by simp [createMocksRequest, getMock, h, hd]⟩
    exact ⟨{ level := LogLevel.error, message := notFoundMsg (Method.toStr method) pathname,
             errObj := some undefinedThenError },
      by simp [createMocksRequest, getMock, h, hd], rfl, rfl⟩
  · refine ⟨by simp [createMocksRequest, getMock, h], fun hd => ?_,
      fun hd => by simp [createMocksRequest, getMock, h, hd]⟩
    exact ⟨{ level := LogLevel.error, message := notFoundMsg (Method.toStr method) pathname,
             errObj := some e },
      by simp [createMocksRequest, getMock, h, hd], rfl, rfl⟩

theorem mocksToMsw_c3_witness :
    (verbOp (createMockHandler
        ({ mocks := [], debug := true, origin := none } : CreateMockHandlerOptions Nat)).mock
        Method.GET "/api/test" none).1.resolve.1 = none
    ∧ (true = true →
        ∃ ev, (verbOp (createMockHandler
            ({ mocks := [], debug := true, origin := none } : CreateMockHandlerOptions Nat)).mock
            Method.GET "/api/test" none).1.resolve.2 = [ev]
          ∧ ev.level = LogLevel.error
          ∧ ev.message = notFoundMsg (Method.toStr Method.GET) "/api/test")
    ∧ (true = false →
        (verbOp (createMockHandler
            ({ mocks := [], debug := true, origin := none } : CreateMockHandlerOptions Nat)).mock
            Method.GET "/api/test" none).1.resolve.2 = []) :=
  mocksToMsw_c3_soft_miss _ Method.GET "/api/test" none (Or.inl rfl)

/-- C4: with a truthy origin configured, a combination accepted by the URL
constructor makes the registration URL the origin-prefixed absolute URL
(with no construction diagnostic); a rejected combination falls back to
the bare pathname with exactly one error diagnostic when debug is set and
none otherwise — and registration is total, never throwing.  The last
conjunct is the spec's concrete example.  (An empty-string origin is
falsy in JavaScript and is treated by the code as no origin at all, so it
is excluded here.) -/
theorem mocksToMsw_c4_origin_url {α : Type}
    (options : CreateMockHandlerOptions α) (o pathname : String) (method : Method)
    (modifier : Option (Modifier α))
    (h : options.origin = some o) (hne : o ≠ "") :
    (∀ u, newURL pathname o = Except.ok u →
        ((createMocksRequest options method pathname modifier).1.url,
         (createMocksRequest options method pathname modifier).2) = (u, []))
    ∧ (∀ e, newURL pathname o = Except.error e →
        ((createMocksRequest options method pathname modifier).1.url,
         (createMocksRequest options method pathname modifier).2)
          = (pathname, if options.debug
              then [{ level := LogLevel.error, message := invalidUrlMsg o pathname,
                      errObj := some e }]
              else []))
    ∧ constructUrl (α := Nat)
        { mocks := [], debug := false, origin := some "https://api.example.com" } "/api/test"
        = ("https://api.example.com/api/test", []) := by
  refine ⟨fun u hu => ?_, fun e he => ?_, by decide⟩
  · simp [createMocksRequest, constructUrl, h, hne, hu]
  · simp [createMocksRequest, constructUrl, h, hne, he]

theorem mocksToMsw_c4_witness :
    ((createMocksRequest ({ mocks := [], debug := true, origin := some "https://api.example.com" }
          : CreateMockHandlerOptions Nat) Method.GET "/api/test" none).1.url,
      (createMocksRequest ({ mocks := [], debug := true, origin := some "https://api.example.com" }
          : CreateMockHandlerOptions Nat) Method.GET "/api/test" none).2)
      = ("https://api.example.com/api/test", [])
    ∧ ((createMocksRequest ({ mocks := [], debug := true, origin := some "not a url" }
          : CreateMockHandlerOptions Nat) Method.GET "/api/test" none).1.url,
      (createMocksRequest ({ mocks := [], debug := true, origin := some "not a url" }
          : CreateMockHandlerOptions Nat) Method.GET "/api/test" none).2)
      = ("/api/test",
         [{ level := LogLevel.error, message := invalidUrlMsg "not a url" "/api/test",
            errObj := some (JsError.typeError "Invalid URL") }]) :=
  ⟨(mocksToMsw_c4_origin_url _ "https://api.example.com" "/api/test" Method.GET none rfl
      (by decide)).1 "https://api.example.com/api/test" rfl,
   (mocksToMsw_c4_origin_url _ "not a url" "/api/test" Method.GET none rfl
      (by decide)).2.1 (JsError.typeError "Invalid URL") rfl⟩

/-- C7: invoking the same registered resolver twice with no intervening
state change yields the same outcome both times, and the invocation
leaves the captured options (the mocks mapping, debug flag and origin)
exactly as they were: the source resolver closes over them and performs
no assignment, so the embedding's post-state is the pre-state. -/
theorem mocksToMsw_c7_idempotent_resolution {α : Type}
    (options : CreateMockHandlerOptions α) (method : Method) (pathname : String)
    (modifier : Option (Modifier α)) :
    (invokeHandler options method pathname modifier).1
      = (invokeHandler (invokeHandler options method pathname modifier).2
          method pathname modifier).1
    ∧ (invokeHandler options method pathname modifier).2 = options
    ∧ (invokeHandler options method pathname modifier).1
      = getMock options method pathname modifier :=
  ⟨rfl, rfl, rfl⟩

/-- C9: when the fixture loads successfully but the supplied modifier
throws, the resolver produces no response and propagates nothing — the
try/catch treats it like a miss, logging the "Mock file was not found"
error diagnostic when debug is set (after the already-emitted load-info
diagnostic), and nothing when debug is off. -/
theorem mocksToMsw_c9_modifier_throw {α : Type}
    (options : CreateMockHandlerOptions α) (method : Method) (pathname : String)
    (f : Modifier α) (c : α) (e : JsError)
    (h1 : lookupMock (pathname ++ "/" ++ Method.toStr method) options.mocks
          = some (Except.ok { default := c }))
    (h2 : f c = Except.error e) :
    (verbOp (createMockHandler options).mock method pathname (some f)).1.resolve
      = (none, if options.debug
          then [{ level := LogLevel.info, message := loadedMsg (Method.toStr method) pathname,
                  errObj := none },
                { level := LogLevel.error, message := notFoundMsg (Method.toStr method) pathname,
                  errObj := some e }]
          else []) := by
  rw [verbOp_createMockHandler]
  cases hd : options.debug <;> simp [createMocksRequest, getMock, h1, h2, hd]

theorem mocksToMsw_c9_witness :
    (verbOp (createMockHandler
        ({ mocks := [("/x/GET", Except.ok { default := 0 })], debug := true,
           origin := none } : CreateMockHandlerOptions Nat)).mock
        Method.GET "/x" (some (fun _ => Except.error (JsError.jsError "boom")))).1.resolve
      = (none,
         [{ level := LogLevel.info, message := loadedMsg (Method.toStr Method.GET) "/x",
            errObj := none },
          { level := LogLevel.error, message := notFoundMsg (Method.toStr Method.GET) "/x",
            errObj := some (JsError.jsError "boom") }]) :=
  mocksToMsw_c9_modifier_throw _ Method.GET "/x"
    (fun _ => Except.error (JsError.jsError "boom")) 0 (JsError.jsError "boom") rfl rfl

/-- C5, corrected: for a fixture file <name> at relative directory relDir,
the traversal's entry has key "/<relDir>/<METHOD>" and a deferred-import
value of "./" plus the forward-slash-normalized path from the output
file's directory to the fixture — provided the input-folder string does
not occur in relDir (the code deletes its first occurrence from the key,
line 23 of src/generate-mocks.ts) and relDir carries no leading
separator.  The second conjunct shows the traversal records exactly this
entry for each .json file it meets, and the last is the spec's scenario:
root fixtures/ with user/GET.json and user/POST.json yields exactly the
keys /user/GET and /user/POST. -/
theorem mocksToMsw_c5_fixture_keys :
    (∀ dir basePath inputFolder outputFile name relDir method,
        strEndsWith name ".json" = true →
        replaceFirst name ".json" "" = method →
        pathDirname (pathJoin basePath name) = relDir →
        replaceFirst relDir inputFolder "" = relDir →
        stripLeadingSep relDir = relDir →
        processFile name dir basePath inputFolder outputFile
          = ("/" ++ relDir ++ "/" ++ method,
             "import('" ++ ("./" ++ replaceAllChar
                (pathRelative (pathDirname outputFile) (pathJoin dir name)) '\\' '/') ++ "')")
        ∧ ∀ acc rest,
            scanGo acc (FsEntry.file name :: rest) dir basePath inputFolder outputFile
              = scanGo (assignOne acc ("/" ++ relDir ++ "/" ++ method)
                  ("import('" ++ ("./" ++ replaceAllChar
                    (pathRelative (pathDirname outputFile) (pathJoin dir name)) '\\' '/') ++ "')"))
                  rest dir basePath inputFolder outputFile)
    ∧ scanDirectory [FsEntry.dir "user" [FsEntry.file "GET.json", FsEntry.file "POST.json"]]
        "fixtures" "" "fixtures" "src/generated/mocks.ts"
        = [("/user/GET", "import('./../../fixtures/user/GET.json')"),
           ("/user/POST", "import('./../../fixtures/user/POST.json')")] := by
  refine ⟨?_, by simp only [scanDirectory, scanGo]; decide⟩
  intro dir basePath inputFolder outputFile name relDir method h1 h2 h3 h4 h5
  have hpf : processFile name dir basePath inputFolder outputFile
      = ("/" ++ relDir ++ "/" ++ method,
         "import('" ++ ("./" ++ replaceAllChar
            (pathRelative (pathDirname outputFile) (pathJoin dir name)) '\\' '/') ++ "')") := by
    simp only [processFile]
    rw [h3, h4, h5, h2]
  refine ⟨hpf, fun acc rest => ?_⟩
  simp only [scanGo, h1, if_true, hpf]

/-- C5 counterexample: when the input root is a directory named "user"
containing a subdirectory also named "user", the file user/GET.json sits
at relative directory "user", yet the traversal does not produce the key
"/user/GET": line 23's replace of the input-folder string empties the
directory part and the key degenerates to "//GET". -/
theorem mocksToMsw_c5_counterexample :
    scanDirectory [FsEntry.dir "user" [FsEntry.file "GET.json"]] "user" "" "user" "out/mocks.ts"
      = [("//GET", "import('./../user/user/GET.json')")]
    ∧ "/user/GET" ∉ (scanDirectory [FsEntry.dir "user" [FsEntry.file "GET.json"]]
        "user" "" "user" "out/mocks.ts").map Prod.fst := by
  refine ⟨?_, ?_⟩ <;> (simp only [scanDirectory, scanGo]; decide)

theorem mocksToMsw_c5_witness :
    processFile "GET.json" "fixtures/user" "user" "fixtures" "src/generated/mocks.ts"
      = ("/user/GET", "import('./../../fixtures/user/GET.json')") := by
  have h := (mocksToMsw_c5_fixture_keys.1 "fixtures/user" "user" "fixtures"
      "src/generated/mocks.ts" "GET.json" "user" "GET"
      (by decide) (by decide) (by decide) (by decide) (by decide)).1
  rw [h]
  decide

/-- C6: when the input directory does not exist, the generator reports the
error on stderr, exits with status 1, writes no output file and creates
no output directory — no partial result. -/
theorem mocksToMsw_c6_missing_input_folder (folder outFile : String) (outputDirExists : Bool) :
    runMain folder outFile none outputDirExists
      = { exitCode := 1,
          stderrLines := ["Input folder \"" ++ folder ++ "\" does not exist"],
          stdoutLines := [],
          written := none,
          createdDirs := [] } :=
  rfl

/-- C8, corrected: the import path embedded in the generated mapping is
always "./" prepended to the forward-slash-normalized relative path from
the output file's directory to the fixture — unconditionally, so a path
that already begins with ".." still receives the extra "./" prefix, as
the concrete conjunct shows. -/
theorem mocksToMsw_c8_import_path :
    (∀ name dir basePath inputFolder outputFile,
        (processFile name dir basePath inputFolder outputFile).2
          = "import('" ++ ("./" ++ replaceAllChar
              (pathRelative (pathDirname outputFile) (pathJoin dir name)) '\\' '/') ++ "')")
    ∧ (processFile "GET.json" "fixtures/user" "user" "fixtures" "src/generated/mocks.ts").2
        = "import('./../../fixtures/user/GET.json')" := by
  exact ⟨fun name dir basePath inputFolder outputFile => rfl, by decide⟩

/-- C8 counterexample: in the spec's own scenario the relative path from
src/generated to the fixture already starts with "..", i.e. it is already
relative-rooted, yet the generated import expression still carries the
additional "./" prefix — refuting "prefixed with ./ only if not already
relative-rooted". -/
theorem mocksToMsw_c8_counterexample :
    pathRelative (pathDirname "src/generated/mocks.ts") (pathJoin "fixtures/user" "GET.json")
        = "../../fixtures/user/GET.json"
    ∧ strStartsWith "../../fixtures/user/GET.json" ".." = true
    ∧ (processFile "GET.json" "fixtures/user" "user" "fixtures" "src/generated/mocks.ts").2
        = "import('./../../fixtures/user/GET.json')"
    ∧ (processFile "GET.json" "fixtures/user" "user" "fixtures" "src/generated/mocks.ts").2
        ≠ "import('../../fixtures/user/GET.json')" := by
  decide

/-- C10, corrected: a fixture file <METHOD>.json directly in the input
root has relative directory ".", so its synthesized key is "/./<METHOD>"
rather than "/<METHOD>" — provided the input-folder string does not occur
in "." (that is, the folder is not itself "."; in that case line 23's
replace empties the directory part instead). -/
theorem mocksToMsw_c10_root_level_key (folder outputFile name method : String)
    (h1 : strEndsWith name ".json" = true)
    (h2 : replaceFirst name ".json" "" = method)
    (h3 : pathDirname name = ".")
    (h4 : replaceFirst "." folder "" = ".") :
    (processFile name folder "" folder outputFile).1 = "/./" ++ method
    ∧ scanDirectory [FsEntry.file name] folder "" folder outputFile
        = [("/./" ++ method, (processFile name folder "" folder outputFile).2)] := by
  have hjoin : pathJoin "" name = name := rfl
  have hkey : (processFile name folder "" folder outputFile).1 = "/./" ++ method := by
    simp only [processFile]
    rw [hjoin, h3, h4]
    rw [show stripLeadingSep "." = "." from rfl, h2]
    rw [show ("/" : String) ++ "." ++ "/" = "/./" from rfl]
  refine ⟨hkey, ?_⟩
  simp only [scanDirectory, scanGo, h1, if_true]
  rw [show ∀ k v, assignOne [] k v = [(k, v)] from fun k v => rfl, hkey]

/-- C10 counterexample: with the input folder "." the root-level file
GET.json does not get the key "/./GET"; the replace of the input-folder
string empties the "." directory part and the key degenerates to
"//GET". -/
theorem mocksToMsw_c10_counterexample :
    scanDirectory [FsEntry.file "GET.json"] "." "" "." "out/mocks.ts"
      = [("//GET", "import('./../GET.json')")]
    ∧ "/./GET" ∉ (scanDirectory [FsEntry.file "GET.json"] "." "" "."
        "out/mocks.ts").map Prod.fst := by
  refine ⟨?_, ?_⟩ <;> (simp only [scanDirectory, scanGo]; decide)

theorem mocksToMsw_c10_witness :
    (processFile "GET.json" "fixtures" "" "fixtures" "src/generated/mocks.ts").1 = "/./GET"
    ∧ scanDirectory [FsEntry.file "GET.json"] "fixtures" "" "fixtures" "src/generated/mocks.ts"
        = [("/./GET", (processFile "GET.json" "fixtures" "" "fixtures"
            "src/generated/mocks.ts").2)] :=
  mocksToMsw_c10_root_level_key "fixtures" "src/generated/mocks.ts" "GET.json" "GET"
    (by decide) (by decide) (by decide) (by decide)
